import Mathlib

/-!
Verification of the semantic-chain retrieval pipeline.

The development shallowly embeds the TypeScript sources:

* `src/src/app/types/index.ts` — configuration and response records;
* `src/unnamed/part_003` (`DocumentLoaderFactory`) — loader resolution;
* `src/unnamed/part_001` (`SemanticSearchProcessor`) — processing, search and
  advanced batch search;
* `src/src/app/utils.ts` (`CustomPDFProcessor`) — PDF processing, search,
  statistics and `changePDF`;
* `src/src/app/core/RAGPipeline.ts` (`RAGPipeline`) — the orchestrator.

Text is modelled as `List Char`; similarity scores as `ℚ`.  External
collaborators (filesystem, embedding service, language model, wall clock) are
passed in as explicit parameters, and fallible steps return `Except`.  The
vector store itself (langchain's `MemoryVectorStore`), the text splitter
(`RecursiveCharacterTextSplitter`) and the MMR selection are library code that
is not part of this repository; they are modelled from the specification, as
marked on each definition.
-/

/-- Error taxonomy of the pipeline, covering the `throw new Error(...)` sites
of the sources (loader factory, processors, orchestrator). -/
inductive PError where
  /-- `File not found: ${path}` in `DocumentLoaderFactory.createLoader`. -/
  | notFound (path : String)
  /-- `Unsupported file type` in `DocumentLoaderFactory.createLoader`. -/
  | unsupportedFormat
  /-- `Web config required for web loader`. -/
  | webConfigRequired
  /-- `File config required for file loader`. -/
  | fileConfigRequired
  /-- `Text config required for text loader`. -/
  | textConfigRequired
  /-- `Unsupported loader type`. -/
  | unsupportedLoaderType
  /-- `Vector store not initialized. Call processDocuments() first.` -/
  | notInitialized
  /-- `Unknown strategy: ...` in `batchSearchAdvanced`. -/
  | unknownStrategy
  /-- A failure of the external embedding service. -/
  | embeddingFailed
  /-- A failure of the external generation (LLM) stage. -/
  | generationFailed
  /-- A failure of an external document source (web or file read). -/
  | sourceUnavailable
deriving DecidableEq, Repr

instance {ε α : Type} [DecidableEq ε] [DecidableEq α] :
    DecidableEq (Except ε α) :=
  fun a b =>
    match a, b with
    | .error x, .error y =>
      if h : x = y then .isTrue (by rw [h])
      else .isFalse (fun hq => h (Except.error.inj hq))
    | .error _, .ok _ => .isFalse (fun hq => Except.noConfusion hq)
    | .ok _, .error _ => .isFalse (fun hq => Except.noConfusion hq)
    | .ok x, .ok y =>
      if h : x = y then .isTrue (by rw [h])
      else .isFalse (fun hq => h (Except.ok.inj hq))

/-- A langchain `Document`: page content plus provenance metadata. -/
structure Document where
  content : List Char
  metadata : List (String × String)
deriving DecidableEq, Repr

/-- A chunk is a Document-shaped unit produced by splitting. -/
abbrev Chunk := Document

/-- The unit stored in the vector index: an id, the embedding vector of the
chunk and the chunk itself. -/
structure IndexedRecord where
  id : Nat
  vector : List ℚ
  chunk : Chunk
deriving DecidableEq, Repr

/-- Modelled from the spec: the backend `MemoryVectorStore` object of
langchain, which is not part of this repository.  Its own structural fields
are the embeddings client, the similarity function and the `memoryVectors`
array holding the indexed records. -/
structure MemoryVectorStore where
  embeddings : Unit := ()
  similarity : Unit := ()
  memoryVectors : List IndexedRecord := []
deriving DecidableEq, Repr

/-- Modelled from the spec: the structural keys of the backend vector store
object (`Object.keys(this.vectorStore)` in `getStats`): the object's own
fields, a fixed list independent of how many records are stored. -/
def objectKeys (_s : MemoryVectorStore) : List String :=
  ["embeddings", "similarity", "memoryVectors"]

/-- Append freshly embedded records to the store.  Modelled from the spec:
`MemoryVectorStore.addDocuments` inserts the embedded records at the end of
`memoryVectors`, growing the index incrementally with no deduplication. -/
def MemoryVectorStore.addRecords (s : MemoryVectorStore)
    (recs : List IndexedRecord) : MemoryVectorStore :=
  { s with memoryVectors := s.memoryVectors ++ recs }

/-- Build indexed records for a list of chunks, with sequential ids starting
at `i` and vectors supplied by the external embedding function. -/
def mkRecords (embed : Chunk → List ℚ) : Nat → List Chunk → List IndexedRecord
  | _, [] => []
  | i, c :: cs => ⟨i, embed c, c⟩ :: mkRecords embed (i + 1) cs

/-- The descending-score ordering used to rank retrieval results: `a` comes
before `b` when its score is at least `b`'s.  Ties are broken by insertion
order because the sort is stable. -/
def scoreGE (rel : IndexedRecord → ℚ) (a b : IndexedRecord) : Prop :=
  rel b ≤ rel a

instance (rel : IndexedRecord → ℚ) : DecidableRel (scoreGE rel) :=
  fun a b => inferInstanceAs (Decidable (rel b ≤ rel a))

/-- Modelled from the spec: similarity search over a store in insertion
order.  `rel` is the similarity of each record's vector to the (externally
embedded) query; the records are ranked by descending score, ties broken by
insertion order, and the first `k` are returned. -/
def similaritySearch (rel : IndexedRecord → ℚ) (k : Nat)
    (store : List IndexedRecord) : List IndexedRecord :=
  (List.insertionSort (scoreGE rel) store).take k

/-- Highest pairwise similarity of a candidate to any already-selected
record; `0` over an empty selection. -/
def maxSim (simRR : IndexedRecord → IndexedRecord → ℚ) (c : IndexedRecord) :
    List IndexedRecord → ℚ
  | [] => 0
  | s :: ss => max (simRR c s) (maxSim simRR c ss)

/-- The greedy MMR objective: `λ · relevance − (1 − λ) · max-similarity to
the already-selected records`. -/
def mmrObjective (lam : ℚ) (rel : IndexedRecord → ℚ)
    (simRR : IndexedRecord → IndexedRecord → ℚ)
    (selected : List IndexedRecord) (c : IndexedRecord) : ℚ :=
  lam * rel c - (1 - lam) * maxSim simRR c selected

/-- First element of the list attaining the maximal value of `f`, together
with the remaining elements in their original order. -/
def selectBest (f : IndexedRecord → ℚ) :
    List IndexedRecord → Option (IndexedRecord × List IndexedRecord)
  | [] => none
  | x :: xs =>
    match selectBest f xs with
    | none => some (x, [])
    | some (y, ys) => if f x < f y then some (y, x :: ys) else some (x, xs)

/-- Modelled from the spec: greedy MMR selection.  At each step the candidate
maximizing the MMR objective against the already-selected records is moved
from the candidate pool to the selection. -/
def mmrSelect (lam : ℚ) (rel : IndexedRecord → ℚ)
    (simRR : IndexedRecord → IndexedRecord → ℚ) :
    Nat → List IndexedRecord → List IndexedRecord → List IndexedRecord
  | 0, _, _ => []
  | k + 1, cands, selected =>
    match selectBest (mmrObjective lam rel simRR selected) cands with
    | none => []
    | some (best, rest) => best :: mmrSelect lam rel simRR k rest (best :: selected)

/-- Modelled from the spec: maximal-marginal-relevance retrieval.  An
oversampled pool of `fetchK` candidates is fetched by similarity, then `k`
of them are selected greedily by the MMR objective. -/
def mmrSearch (rel : IndexedRecord → ℚ)
    (simRR : IndexedRecord → IndexedRecord → ℚ) (lam : ℚ) (k fetchK : Nat)
    (store : List IndexedRecord) : List IndexedRecord :=
  mmrSelect lam rel simRR k (similaritySearch rel fetchK store) []

section SortingLemmas

variable (rel : IndexedRecord → ℚ)

theorem sorted_similaritySearch (k : Nat) (store : List IndexedRecord) :
    List.Sorted (scoreGE rel) (similaritySearch rel k store) := by
  haveI : IsTotal IndexedRecord (scoreGE rel) :=
    ⟨fun a b => le_total (rel b) (rel a)⟩
  haveI : IsTrans IndexedRecord (scoreGE rel) :=
    ⟨fun a b c h1 h2 => le_trans h2 h1⟩
  exact List.Pairwise.sublist (List.take_sublist _ _)
    (List.sorted_insertionSort _ store)

theorem length_similaritySearch (k : Nat) (store : List IndexedRecord) :
    (similaritySearch rel k store).length = min k store.length := by
  simp [similaritySearch, List.length_take, List.length_insertionSort]

theorem selectBest_sorted :
    ∀ (x : IndexedRecord) (xs : List IndexedRecord),
      List.Sorted (scoreGE rel) (x :: xs) →
      selectBest rel (x :: xs) = some (x, xs) := by
  intro x xs
  induction xs generalizing x with
  | nil => intro _; rfl
  | cons y ys ih =>
    intro hs
    have hxy : rel y ≤ rel x := (List.sorted_cons.mp hs).1 y (by simp)
    have hys : List.Sorted (scoreGE rel) (y :: ys) := (List.sorted_cons.mp hs).2
    have hrec := ih y hys
    have hdef : selectBest rel (x :: y :: ys) =
        match selectBest rel (y :: ys) with
        | none => some (x, [])
        | some (b, bs) =>
          if rel x < rel b then some (b, x :: bs) else some (x, y :: ys) := rfl
    rw [hdef, hrec]
    exact if_neg (not_lt.mpr hxy)

theorem mmrObjective_one (simRR : IndexedRecord → IndexedRecord → ℚ)
    (selected : List IndexedRecord) :
    mmrObjective 1 rel simRR selected = rel := by
  funext c
  simp only [mmrObjective]
  ring

theorem mmrSelect_one (simRR : IndexedRecord → IndexedRecord → ℚ) :
    ∀ (k : Nat) (cands selected : List IndexedRecord),
      List.Sorted (scoreGE rel) cands →
      mmrSelect 1 rel simRR k cands selected = cands.take k := by
  intro k
  induction k with
  | zero => intro cands selected _; rfl
  | succ k ih =>
    intro cands selected hs
    cases cands with
    | nil => rfl
    | cons x xs =>
      have hxs : List.Sorted (scoreGE rel) xs := (List.sorted_cons.mp hs).2
      simp only [mmrSelect, mmrObjective_one, selectBest_sorted rel x xs hs]
      rw [ih xs (x :: selected) hxs]
      rfl

end SortingLemmas

theorem take_take_of_le {α : Type} (l : List α) {k m : Nat} (h : k ≤ m) :
    (l.take m).take k = l.take k := by
  rw [List.take_take, Nat.min_eq_left h]

/-! ## Chunker

Modelled from the spec: `RecursiveCharacterTextSplitter` is library code not
part of this repository.  §4.2 of the design: each Document's content is cut
into successive windows of `chunkSize` characters, each window advancing by
`chunkSize − chunkOverlap` characters; the final window may be shorter. -/

/-- Modelled from the spec: the sliding-window splitter over raw text.
`max 1 step` only makes the recursion total; the chunker contract requires
`overlap < size`, hence `step ≥ 1`, where `max 1 step = step`. -/
def splitWindows (size step : Nat) (s : List Char) : List (List Char) :=
  if _h : s.length ≤ size then [s]
  else s.take size :: splitWindows size step (s.drop (max 1 step))
termination_by s.length
decreasing_by
  simp only [List.length_drop]
  have h1 : 1 ≤ max 1 step := le_max_left _ _
  omega

/-- Attach the inherited metadata plus the appended sequence index to each
window, turning windows into Chunks. -/
def attachIndex (md : List (String × String)) :
    Nat → List (List Char) → List Chunk
  | _, [] => []
  | i, w :: ws => ⟨w, md ++ [("chunkIndex", toString i)]⟩ :: attachIndex md (i + 1) ws

/-- Modelled from the spec: split one Document into overlapping Chunks. -/
def splitDocument (size overlap : Nat) (d : Document) : List Chunk :=
  attachIndex d.metadata 0 (splitWindows size (size - overlap) d.content)

/-- Split a batch of Documents (`splitter.splitDocuments`). -/
def splitAll (size overlap : Nat) : List Document → List Chunk
  | [] => []
  | d :: ds => splitDocument size overlap d ++ splitAll size overlap ds

/-- Concatenate chunk contents, dropping the first `overlap` characters of
every chunk. -/
def dropConcat (overlap : Nat) : List (List Char) → List Char
  | [] => []
  | w :: ws => w.drop overlap ++ dropConcat overlap ws

/-- Reconstruction of a Document from its chunk contents: the first window
kept whole, the overlapping first `overlap` characters of every later window
dropped. -/
def reconstruct (overlap : Nat) : List (List Char) → List Char
  | [] => []
  | w :: ws => w ++ dropConcat overlap ws

/-- Contents of a list of chunks. -/
def chunkContents (cs : List Chunk) : List (List Char) :=
  cs.map Document.content

theorem chunkContents_attachIndex (md : List (String × String)) :
    ∀ (i : Nat) (ws : List (List Char)),
      chunkContents (attachIndex md i ws) = ws := by
  intro i ws
  induction ws generalizing i with
  | nil => rfl
  | cons w ws ih => simp [attachIndex, chunkContents] at ih ⊢; exact ih _

theorem dropConcat_splitWindows (size overlap : Nat) (hov : overlap < size) :
    ∀ s : List Char,
      dropConcat overlap (splitWindows size (size - overlap) s) =
        s.drop overlap := by
  have hstep : max 1 (size - overlap) = size - overlap := by omega
  have main : ∀ (n : Nat) (s : List Char), s.length ≤ n →
      dropConcat overlap (splitWindows size (size - overlap) s) =
        s.drop overlap := by
    intro n
    induction n with
    | zero =>
      intro s hs
      have hlen : s.length ≤ size := by omega
      rw [splitWindows, dif_pos hlen]
      simp [dropConcat]
    | succ n ih =>
      intro s hs
      rw [splitWindows]
      by_cases hlen : s.length ≤ size
      · rw [dif_pos hlen]; simp [dropConcat]
      · rw [dif_neg hlen]
        have hrec := ih (s.drop (max 1 (size - overlap))) (by
          simp only [List.length_drop]
          omega)
        rw [hstep] at hrec
        simp only [dropConcat]
        rw [hstep, hrec, List.drop_drop, List.drop_take]
        have h1 : size - overlap + overlap = size := by omega
        rw [h1]
        have h3 : s.drop size = (s.drop overlap).drop (size - overlap) := by
          rw [List.drop_drop]
          congr 1
          omega
        rw [h3]
        exact List.take_append_drop _ _
  intro s
  exact main s.length s le_rfl

theorem reconstruct_splitWindows (size overlap : Nat) (hov : overlap < size)
    (s : List Char) :
    reconstruct overlap (splitWindows size (size - overlap) s) = s := by
  rw [splitWindows]
  by_cases hlen : s.length ≤ size
  · rw [dif_pos hlen]; simp [reconstruct, dropConcat]
  · rw [dif_neg hlen]
    have hstep : max 1 (size - overlap) = size - overlap := by omega
    simp only [reconstruct, hstep,
      dropConcat_splitWindows size overlap hov]
    rw [List.drop_drop]
    have h1 : size - overlap + overlap = size := by omega
    rw [h1]
    exact List.take_append_drop _ _

/-! ## Loader configuration and `DocumentLoaderFactory` (src/unnamed/part_003) -/

/-- Loader kind tag (`type` field of `DocumentLoaderConfig`). -/
inductive LoaderType where
  | web
  | file
  | text
deriving DecidableEq, Repr

/-- Declared sub-format of a file loader (`fileConfig.type`). -/
inductive FileType where
  | pdf
  | txt
  | json
deriving DecidableEq, Repr

structure WebConfig where
  url : String
  selector : Option String
deriving DecidableEq, Repr

structure FileConfig where
  path : String
  format : FileType
deriving DecidableEq, Repr

structure TextConfig where
  content : List Char
deriving DecidableEq, Repr

/-- `DocumentLoaderConfig` of `src/src/app/types/index.ts`. -/
structure DocumentLoaderConfig where
  kind : LoaderType
  webConfig : Option WebConfig := none
  fileConfig : Option FileConfig := none
  textConfig : Option TextConfig := none
deriving DecidableEq, Repr

/-- The loader objects `createLoader` can return: a web loader, a PDF
loader, a text-file loader, or the literal in-memory loader. -/
inductive Loader where
  | cheerio (url : String) (selector : String)
  | pdfLoader (path : String)
  | textLoader (path : String)
  | literalText (doc : Document)
deriving DecidableEq, Repr

namespace DocumentLoaderFactory

/-- `DocumentLoaderFactory.createLoader`.  `fsExists` stands for the
filesystem (`fs.existsSync`).  No file content is read here: the function
only resolves the configuration to a loader object or an error. -/
def createLoader (fsExists : String → Bool) (config : DocumentLoaderConfig) :
    Except PError Loader :=
  match config.kind with
  | .web =>
    match config.webConfig with
    | none => .error .webConfigRequired
    | some w => .ok (.cheerio w.url (w.selector.getD "p"))
  | .file =>
    match config.fileConfig with
    | none => .error .fileConfigRequired
    | some f =>
      if fsExists f.path then
        match f.format with
        | .pdf => .ok (.pdfLoader f.path)
        | .txt => .ok (.textLoader f.path)
        | .json => .error .unsupportedFormat
      else .error (.notFound f.path)
  | .text =>
    match config.textConfig with
    | none => .error .textConfigRequired
    | some t => .ok (.literalText ⟨t.content, [("source", "text-input")]⟩)

/-- `DocumentLoaderFactory.loadDocuments`: resolve the loader, then run it.
`runLoader` stands for the I/O performed by `loader.load()`. -/
def loadDocuments (fsExists : String → Bool)
    (runLoader : Loader → Except PError (List Document))
    (config : DocumentLoaderConfig) : Except PError (List Document) :=
  match createLoader fsExists config with
  | .error e => .error e
  | .ok l => runLoader l

end DocumentLoaderFactory

/-! ## `SemanticSearchProcessor` (src/unnamed/part_001) -/

/-- Retrieval strategy names accepted by the `batchSearchAdvanced` options
type: `'similarity' | 'mmr' | 'threshold'`. -/
inductive Strategy where
  | similarity
  | mmr
  | threshold
deriving DecidableEq, Repr

/-- The options record of `batchSearchAdvanced`, with the defaults the
source destructures (`k = 2`, `strategy = 'mmr'`, `mmrLambda = 0.7`,
`fetchK = k * 2`). -/
structure BatchSearchOptions where
  k : Nat := 2
  strategy : Strategy := .mmr
  mmrLambda : ℚ := 7 / 10
  scoreThreshold : Option ℚ := none
  fetchK : Option Nat := none
deriving DecidableEq, Repr

/-- `SemanticSearchProcessor`: configuration, the optional vector store
(null until `processDocuments` creates it) and the loaded documents. -/
structure SemanticSearchProcessor where
  chunkSize : Nat := 1000
  chunkOverlap : Nat := 200
  embeddingModel : String := "mistral-embed"
  vectorStore : Option MemoryVectorStore := none
  documents : List Document := []
deriving DecidableEq, Repr

namespace SemanticSearchProcessor

/-- `processDocuments`: load, split, create the store, then add the embedded
chunks.  `loadRes` is the outcome of the external load and `embedRes` the
outcome of the external embedding call made inside `addDocuments`.  The
source assigns the freshly created (empty) store to `this.vectorStore`
before `addDocuments` runs, so an embedding failure leaves an empty store
in place. -/
def processDocuments (p : SemanticSearchProcessor)
    (loadRes : Except PError (List Document))
    (embedRes : Except PError (Chunk → List ℚ)) :
    SemanticSearchProcessor × Except PError Unit :=
  match loadRes with
  | .error e => (p, .error e)
  | .ok docs =>
    let splits := splitAll p.chunkSize p.chunkOverlap docs
    match embedRes with
    | .error e =>
      ({ p with documents := docs, vectorStore := some {} }, .error e)
    | .ok embed =>
      let store : MemoryVectorStore := { memoryVectors := mkRecords embed 0 splits }
      ({ p with documents := docs, vectorStore := some store }, .ok ())

/-- `searchWithScore`: guarded on the store being initialized, then a
similarity search with scores. -/
def searchWithScore (p : SemanticSearchProcessor)
    (rel : IndexedRecord → ℚ) (k : Nat := 3) :
    Except PError (List (Document × ℚ)) :=
  match p.vectorStore with
  | none => .error .notInitialized
  | some s =>
    .ok ((similaritySearch rel k s.memoryVectors).map fun r => (r.chunk, rel r))

/-- `searchWithVectorsWithScore`: same guard, searching with an
already-embedded query vector `qv` under the store's similarity `sim`. -/
def searchWithVectorsWithScore (p : SemanticSearchProcessor)
    (qv : List ℚ) (sim : List ℚ → List ℚ → ℚ) (k : Nat := 3) :
    Except PError (List (Document × ℚ)) :=
  match p.vectorStore with
  | none => .error .notInitialized
  | some s =>
    .ok ((similaritySearch (fun r => sim qv r.vector) k s.memoryVectors).map
      fun r => (r.chunk, sim qv r.vector))

/-- `search`: same guard, results without scores. -/
def search (p : SemanticSearchProcessor)
    (rel : IndexedRecord → ℚ) (k : Nat := 3) :
    Except PError (List Document) :=
  match p.vectorStore with
  | none => .error .notInitialized
  | some s =>
    .ok ((similaritySearch rel k s.memoryVectors).map fun r => r.chunk)

/-- `batchSearchAdvanced`: guarded on the store, then a switch on the
strategy.  The switch of the source has cases only for `'similarity'` and
`'mmr'`; every other strategy — including the `'threshold'` member of the
options type — falls through to the default case, which throws
`Unknown strategy`.  The source configures the mmr retriever with `fetchK`
and `lambda` but without `k`, so the retriever's own default result count
(4) applies to that branch.  `queries` are represented by their externally
embedded relevance functions. -/
def batchSearchAdvanced (p : SemanticSearchProcessor)
    (queries : List (IndexedRecord → ℚ))
    (simRR : IndexedRecord → IndexedRecord → ℚ)
    (opts : BatchSearchOptions := {}) :
    Except PError (List (List Document)) :=
  match p.vectorStore with
  | none => .error .notInitialized
  | some s =>
    let fetchK := opts.fetchK.getD (opts.k * 2)
    match opts.strategy with
    | .similarity =>
      .ok (queries.map fun rel =>
        (similaritySearch rel opts.k s.memoryVectors).map fun r => r.chunk)
    | .mmr =>
      .ok (queries.map fun rel =>
        (mmrSearch rel simRR opts.mmrLambda 4 fetchK s.memoryVectors).map
          fun r => r.chunk)
    | .threshold => .error .unknownStrategy

/-- `getStats` of the semantic search processor: page count, and
`Object.keys(this.vectorStore).length` as the chunk count. -/
def getStats (p : SemanticSearchProcessor) : Nat × Nat :=
  (p.documents.length,
   match p.vectorStore with
   | none => 0
   | some s => (objectKeys s).length)

end SemanticSearchProcessor

/-! ## `CustomPDFProcessor` (src/src/app/utils.ts) -/

/-- `CustomPDFProcessor`: the PDF file name and chunking configuration, the
optional vector store (null until `processDocuments` creates it) and the
loaded documents. -/
structure CustomPDFProcessor where
  pdfFileName : String := "EdwardProffesionalExperience.pdf"
  chunkSize : Nat := 1000
  chunkOverlap : Nat := 200
  embeddingModel : String := "mistral-embed"
  vectorStore : Option MemoryVectorStore := none
  documents : List Document := []
deriving DecidableEq, Repr

namespace CustomPDFProcessor

/-- `processDocuments` of the PDF processor: load the PDF, split, create the
store, then add the embedded chunks.  As in the source, the freshly created
(empty) store is assigned to `this.vectorStore` before `addDocuments` runs,
so an embedding failure leaves an empty store in place while the error
propagates. -/
def processDocuments (p : CustomPDFProcessor)
    (loadRes : Except PError (List Document))
    (embedRes : Except PError (Chunk → List ℚ)) :
    CustomPDFProcessor × Except PError Unit :=
  match loadRes with
  | .error e => (p, .error e)
  | .ok docs =>
    let splits := splitAll p.chunkSize p.chunkOverlap docs
    match embedRes with
    | .error e =>
      ({ p with documents := docs, vectorStore := some {} }, .error e)
    | .ok embed =>
      let store : MemoryVectorStore := { memoryVectors := mkRecords embed 0 splits }
      ({ p with documents := docs, vectorStore := some store }, .ok ())

/-- `searchWithScore` of the PDF processor. -/
def searchWithScore (p : CustomPDFProcessor)
    (rel : IndexedRecord → ℚ) (k : Nat := 3) :
    Except PError (List (Document × ℚ)) :=
  match p.vectorStore with
  | none => .error .notInitialized
  | some s =>
    .ok ((similaritySearch rel k s.memoryVectors).map fun r => (r.chunk, rel r))

/-- `search` of the PDF processor. -/
def search (p : CustomPDFProcessor)
    (rel : IndexedRecord → ℚ) (k : Nat := 3) :
    Except PError (List Document) :=
  match p.vectorStore with
  | none => .error .notInitialized
  | some s =>
    .ok ((similaritySearch rel k s.memoryVectors).map fun r => r.chunk)

/-- The statistics record returned by `getStats`. -/
structure Stats where
  totalPages : Nat
  totalChunks : Nat
deriving DecidableEq, Repr

/-- `getStats`: `totalPages` is the number of loaded documents and
`totalChunks` is `Object.keys(this.vectorStore).length` when a store
exists, `0` otherwise. -/
def getStats (p : CustomPDFProcessor) : Stats :=
  { totalPages := p.documents.length
    totalChunks :=
      match p.vectorStore with
      | none => 0
      | some s => (objectKeys s).length }

/-- Number of records actually stored in the processor's index. -/
def storedRecords (p : CustomPDFProcessor) : Nat :=
  match p.vectorStore with
  | none => 0
  | some s => s.memoryVectors.length

/-- `changePDF`: set the new file name, discard the vector store and the
loaded documents, then reprocess. -/
def changePDF (p : CustomPDFProcessor) (fileName : String)
    (loadRes : Except PError (List Document))
    (embedRes : Except PError (Chunk → List ℚ)) :
    CustomPDFProcessor × Except PError Unit :=
  processDocuments
    { p with pdfFileName := fileName, vectorStore := none, documents := [] }
    loadRes embedRes

end CustomPDFProcessor

/-! ## `RAGPipeline` (src/src/app/core/RAGPipeline.ts) -/

/-- The `metadata` record of a `RAGResponse`. -/
structure RAGMetadata where
  retrievedDocs : Nat
  processingTime : Nat
deriving DecidableEq, Repr

/-- `RAGResponse` of `src/src/app/types/index.ts`. -/
structure RAGResponse where
  answer : List Char
  context : List (List Char)
  metadata : RAGMetadata
deriving DecidableEq, Repr

/-- `RAGPipeline`: chunking configuration and the vector store, which is
null until `initialize` creates it. -/
structure RAGPipeline where
  chunkSize : Nat := 1000
  chunkOverlap : Nat := 200
  vectorStore : Option MemoryVectorStore := none
deriving DecidableEq, Repr

namespace RAGPipeline

/-- The records currently stored in the pipeline's index. -/
def records (p : RAGPipeline) : List IndexedRecord :=
  match p.vectorStore with
  | none => []
  | some s => s.memoryVectors

/-- Modelled from the spec: the orchestrator is `READY` exactly when
initialization has produced a populated vector store (§4.6 state machine;
the source keeps no explicit state field, its store reference plays that
role). -/
def ready (p : RAGPipeline) : Bool :=
  p.vectorStore.isSome

/-- `addNewDocuments`: load the configured source, split with the pipeline's
chunk configuration, and add the resulting chunks to the existing store.
The source performs no state check; with no store the call cannot succeed
(`this.vectorStore` is null), modelled as the not-initialized error. -/
def addNewDocuments (p : RAGPipeline)
    (loadRes : Except PError (List Document))
    (embed : Chunk → List ℚ) :
    RAGPipeline × Except PError Unit :=
  match loadRes with
  | .error e => (p, .error e)
  | .ok docs =>
    match p.vectorStore with
    | none => (p, .error .notInitialized)
    | some s =>
      let splits := splitAll p.chunkSize p.chunkOverlap docs
      let recs := mkRecords embed s.memoryVectors.length splits
      ({ p with vectorStore := some (s.addRecords recs) }, .ok ())

/-- The `retrieve` stage of the query graph: a similarity search with
`k = 4` over the store, returning the retrieved chunks. -/
def retrieve (p : RAGPipeline) (rel : IndexedRecord → ℚ) :
    Except PError (List Chunk) :=
  match p.vectorStore with
  | none => .error .notInitialized
  | some s =>
    .ok ((similaritySearch rel 4 s.memoryVectors).map fun r => r.chunk)

/-- `query`: run `retrieve` then `generate`, and wrap the answer, the
retrieved chunk texts and the metadata.  `gen` is the external language
model invoked on the retrieved context; `t0` and `t1` are the wall-clock
readings taken at entry and after the graph completes. -/
def query (p : RAGPipeline) (rel : IndexedRecord → ℚ)
    (gen : List Chunk → Except PError (List Char)) (t0 t1 : Nat) :
    Except PError RAGResponse :=
  match p.retrieve rel with
  | .error e => .error e
  | .ok ctx =>
    match gen ctx with
    | .error e => .error e
    | .ok ans =>
      .ok { answer := ans
            context := ctx.map Document.content
            metadata := { retrievedDocs := ctx.length, processingTime := t1 - t0 } }

end RAGPipeline

/-! ## Concrete fixtures used by witnesses and counterexamples -/

/-- A record whose vector embeds the text `a` with score head `2`. -/
def recA : IndexedRecord := ⟨0, [2], ⟨['a'], []⟩⟩

/-- A record whose vector embeds the text `b` with score head `5`. -/
def recB : IndexedRecord := ⟨1, [5], ⟨['b'], []⟩⟩

/-- A record whose vector embeds the text `c` with score head `3`. -/
def recC : IndexedRecord := ⟨2, [3], ⟨['c'], []⟩⟩

/-- A two-record store. -/
def storeAB : MemoryVectorStore := { memoryVectors := [recA, recB] }

/-- Relevance of a record read off the head of its stored vector. -/
def relHead : IndexedRecord → ℚ := fun r => r.vector.headD 0

/-- A semantic search processor whose store holds two records. -/
def procAB : SemanticSearchProcessor := { vectorStore := some storeAB }

/-! ## Claims -/

/-- With `λ = 1` the greedy MMR objective collapses to pure relevance, so
the selection walks the similarity-sorted pool in order: MMR returns the
top `min k fetchK` similarity results. -/
theorem mmrSearch_one (rel : IndexedRecord → ℚ)
    (simRR : IndexedRecord → IndexedRecord → ℚ) (k fetchK : Nat)
    (store : List IndexedRecord) :
    mmrSearch rel simRR 1 k fetchK store =
      similaritySearch rel (min k fetchK) store := by
  unfold mmrSearch
  rw [mmrSelect_one rel simRR k _ [] (sorted_similaritySearch rel fetchK store)]
  unfold similaritySearch
  rw [List.take_take]

/-- A three-record store. -/
def storeABC : MemoryVectorStore := { memoryVectors := [recA, recB, recC] }

/-- A semantic search processor whose store holds three records. -/
def procABC : SemanticSearchProcessor := { vectorStore := some storeABC }

/-- The advanced-search options of the C2 refutation: MMR strategy,
`λ = 1`, `k = 1`. -/
def optsMMR1 : BatchSearchOptions := { strategy := .mmr, mmrLambda := 1, k := 1 }

/-- The mmr branch of `batchSearchAdvanced` with `λ = 1` evaluated: since
the source configures the retriever without `k`, the branch returns the
similarity ranking truncated to `min 4 fetchK` — the retriever's default
count capped by the oversampled pool — regardless of the requested `k`. -/
theorem batchSearchAdvanced_mmr_eval (p : SemanticSearchProcessor)
    (s : MemoryVectorStore) (queries : List (IndexedRecord → ℚ))
    (simRR : IndexedRecord → IndexedRecord → ℚ) (opts : BatchSearchOptions)
    (hp : p.vectorStore = some s) (hstrat : opts.strategy = .mmr)
    (hlam : opts.mmrLambda = 1) :
    p.batchSearchAdvanced queries simRR opts =
      .ok (queries.map fun rel =>
        (similaritySearch rel (min 4 (opts.fetchK.getD (opts.k * 2)))
            s.memoryVectors).map fun r => r.chunk) := by
  have hpool : ∀ rel : IndexedRecord → ℚ,
      mmrSearch rel simRR opts.mmrLambda 4 (opts.fetchK.getD (opts.k * 2))
          s.memoryVectors =
        similaritySearch rel (min 4 (opts.fetchK.getD (opts.k * 2)))
          s.memoryVectors := by
    intro rel
    rw [hlam, mmrSearch_one]
  simp only [SemanticSearchProcessor.batchSearchAdvanced, hp, hstrat, hpool]

/-- **C2** (counterexample): the claim says MMR retrieval with `λ = 1`
returns exactly the similarity results for the same query and the same `k`,
for every `k`.  But the mmr branch of `batchSearchAdvanced` configures the
retriever without `k` (only `fetchK` and `lambda`), so the retriever's
default count of 4 applies: on a three-record store with `k = 1` and
`λ = 1`, the MMR strategy returns two results where the similarity strategy
returns one. -/
theorem batchSearchAdvanced_mmr_k_not_forwarded :
    SemanticSearchProcessor.batchSearchAdvanced procABC [relHead]
        (fun _ _ => 0) optsMMR1 =
      .ok [[recB.chunk, recC.chunk]] ∧
    SemanticSearchProcessor.batchSearchAdvanced procABC [relHead]
        (fun _ _ => 0) { strategy := .similarity, k := 1 } =
      .ok [[recB.chunk]] ∧
    ([[recB.chunk, recC.chunk]] : List (List Document)) ≠ [[recB.chunk]] := by
  refine ⟨?_, by decide, by decide⟩
  rw [batchSearchAdvanced_mmr_eval procABC storeABC [relHead] (fun _ _ => 0)
    optsMMR1 rfl rfl rfl]
  decide

/-- **C2** (amended): for every query, every option record and every
initialized store, retrieval through `batchSearchAdvanced` under the MMR
strategy with `λ = 1` returns, per query, exactly the similarity-ranked
results truncated to `min 4 fetchK` — the retriever's default count of 4
capped by the oversampled pool (`fetchK = k * 2` unless given) — rather
than to the requested `k`, because the mmr branch does not forward `k` to
the retriever.  It coincides with the similarity strategy at the same `k`
only when the two truncations agree, e.g. at `k = 4`. -/
theorem batchSearchAdvanced_mmr_lambda_one (p : SemanticSearchProcessor)
    (s : MemoryVectorStore) (queries : List (IndexedRecord → ℚ))
    (simRR : IndexedRecord → IndexedRecord → ℚ) (opts : BatchSearchOptions)
    (hp : p.vectorStore = some s) (hstrat : opts.strategy = .mmr)
    (hlam : opts.mmrLambda = 1) :
    p.batchSearchAdvanced queries simRR opts =
      .ok (queries.map fun rel =>
        (similaritySearch rel (min 4 (opts.fetchK.getD (opts.k * 2)))
            s.memoryVectors).map fun r => r.chunk) :=
  batchSearchAdvanced_mmr_eval p s queries simRR opts hp hstrat hlam

/-- Witness for the amended **C2**: the three-record store with `k = 1`,
`λ = 1` returns the top `min 4 2 = 2` similarity results. -/
theorem batchSearchAdvanced_mmr_lambda_one_witness :
    SemanticSearchProcessor.batchSearchAdvanced procABC [relHead]
        (fun _ _ => 0) optsMMR1 =
      .ok ([relHead].map fun rel =>
        (similaritySearch rel (min 4 (optsMMR1.fetchK.getD (optsMMR1.k * 2)))
            storeABC.memoryVectors).map fun r => r.chunk) :=
  batchSearchAdvanced_mmr_lambda_one procABC storeABC [relHead]
    (fun _ _ => 0) optsMMR1 rfl rfl rfl

/-- **C3**: for every document and every chunk configuration with
`0 ≤ chunkOverlap < chunkSize`, concatenating the contents of the chunks
produced by splitting, dropping the overlapping first `chunkOverlap`
characters of each chunk after the first, reconstructs the original document
content exactly. -/
theorem chunk_reconstruction (size overlap : Nat) (d : Document)
    (hov : overlap < size) :
    reconstruct overlap (chunkContents (splitDocument size overlap d)) =
      d.content := by
  unfold splitDocument
  rw [chunkContents_attachIndex]
  exact reconstruct_splitWindows size overlap hov d.content

/-- Witness for **C3** at `chunkSize = 3`, `chunkOverlap = 1` on the
five-character document `abcde`. -/
theorem chunk_reconstruction_witness :
    1 < 3 ∧
      reconstruct 1
          (chunkContents (splitDocument 3 1 ⟨['a', 'b', 'c', 'd', 'e'], []⟩)) =
        ['a', 'b', 'c', 'd', 'e'] :=
  ⟨by decide, chunk_reconstruction 3 1 ⟨['a', 'b', 'c', 'd', 'e'], []⟩ (by decide)⟩

/-- **C6**: for every search with `k > 0` on an index holding fewer than `k`
records, the search returns exactly as many results as the index holds
records (not `k`), and a search on an empty index returns an empty sequence
rather than an error. -/
theorem search_returns_all_when_fewer (p : SemanticSearchProcessor)
    (s : MemoryVectorStore) (rel : IndexedRecord → ℚ) (k : Nat)
    (hp : p.vectorStore = some s) (_hk : 0 < k)
    (hn : s.memoryVectors.length < k) :
    (∃ docs, p.search rel k = .ok docs ∧
      docs.length = s.memoryVectors.length) ∧
    (s.memoryVectors = [] → p.search rel k = .ok []) := by
  constructor
  · refine ⟨(similaritySearch rel k s.memoryVectors).map fun r => r.chunk, ?_, ?_⟩
    · simp [SemanticSearchProcessor.search, hp]
    · rw [List.length_map, length_similaritySearch,
        Nat.min_eq_right (le_of_lt hn)]
  · intro hempty
    simp [SemanticSearchProcessor.search, hp, hempty, similaritySearch]

/-- Witness for **C6**: `k = 3` against the two-record store returns exactly
two results. -/
theorem search_returns_all_when_fewer_witness :
    storeAB.memoryVectors.length < 3 ∧
      ((∃ docs, SemanticSearchProcessor.search procAB relHead 3 = .ok docs ∧
          docs.length = storeAB.memoryVectors.length) ∧
        (storeAB.memoryVectors = [] →
          SemanticSearchProcessor.search procAB relHead 3 = .ok [])) :=
  ⟨by decide,
    search_returns_all_when_fewer procAB storeAB relHead 3 rfl (by decide)
      (by decide)⟩

/-- **C1** (code bug): the options type of `batchSearchAdvanced` declares the
`'threshold'` strategy with a `scoreThreshold` cutoff, but the strategy
switch has no case for it: a query run under `'threshold'` falls through to
the default case and fails with the `Unknown strategy` error instead of
returning the similarity results whose score reaches the cutoff.  Evaluated
here at the failing input: an initialized two-record store, one query, and
`{ strategy: 'threshold', scoreThreshold: 0.9, k: 2 }`. -/
theorem batchSearchAdvanced_threshold_throws :
    SemanticSearchProcessor.batchSearchAdvanced procAB [relHead] (fun _ _ => 0)
        { strategy := .threshold, scoreThreshold := some (9 / 10), k := 2 } =
      .error .unknownStrategy := rfl

/-- **C4**: `addDocuments` is only valid in the `READY` state (with no store
the call fails rather than succeeds), re-runs load→chunk→add, remains in
`READY`, and extends the existing index without resetting it: every record
stored in the vector index before the call is still stored, unchanged, at
its position after the call. -/
theorem addNewDocuments_extends (p : RAGPipeline) (docs : List Document)
    (embed : Chunk → List ℚ) :
    (p.vectorStore = none →
      RAGPipeline.addNewDocuments p (.ok docs) embed =
        (p, .error .notInitialized)) ∧
    (p.ready = true →
      ∃ p', RAGPipeline.addNewDocuments p (.ok docs) embed = (p', .ok ()) ∧
        p'.ready = true ∧
        p'.records.take p.records.length = p.records) := by
  constructor
  · intro hnone
    simp [RAGPipeline.addNewDocuments, hnone]
  · intro hready
    match hs : p.vectorStore with
    | none => rw [RAGPipeline.ready, hs] at hready; simp at hready
    | some s =>
      refine ⟨{ p with vectorStore := some (s.addRecords (mkRecords embed
        s.memoryVectors.length (splitAll p.chunkSize p.chunkOverlap docs))) },
        ?_, ?_, ?_⟩
      · simp [RAGPipeline.addNewDocuments, hs]
      · rfl
      · simp [RAGPipeline.records, hs, MemoryVectorStore.addRecords,
          List.take_left]

/-- Witness for **C4**: adding one document to the two-record pipeline keeps
the two prior records in place. -/
theorem addNewDocuments_extends_witness :
    RAGPipeline.ready { vectorStore := some storeAB } = true ∧
      (∃ p', RAGPipeline.addNewDocuments { vectorStore := some storeAB }
          (.ok [⟨['x'], []⟩]) (fun _ => [1]) = (p', .ok ()) ∧
        p'.ready = true ∧
        p'.records.take
            (RAGPipeline.records { vectorStore := some storeAB }).length =
          RAGPipeline.records { vectorStore := some storeAB }) :=
  ⟨rfl, (addNewDocuments_extends { vectorStore := some storeAB }
    [⟨['x'], []⟩] (fun _ => [1])).2 rfl⟩

/-- **C5**: for every successful query on a `READY` pipeline, the returned
response's `metadata.retrievedDocs` equals the length of its `context`
sequence, the `context` entries are exactly the text contents of the chunks
returned by the retrieve stage in retrieval order, and the metadata records
the wall-clock processing time (the difference of the clock readings taken
around the graph run). -/
theorem query_response_metadata (p : RAGPipeline) (rel : IndexedRecord → ℚ)
    (gen : List Chunk → Except PError (List Char)) (t0 t1 : Nat)
    (resp : RAGResponse)
    (hq : RAGPipeline.query p rel gen t0 t1 = .ok resp) :
    resp.metadata.retrievedDocs = resp.context.length ∧
    (∃ ctx, RAGPipeline.retrieve p rel = .ok ctx ∧
      resp.context = ctx.map Document.content) ∧
    resp.metadata.processingTime = t1 - t0 := by
  unfold RAGPipeline.query at hq
  match hr : RAGPipeline.retrieve p rel with
  | .error e =>
    simp only [hr] at hq
    exact (Except.noConfusion hq)
  | .ok ctx =>
    simp only [hr] at hq
    match hg : gen ctx with
    | .error e =>
      simp only [hg] at hq
      exact (Except.noConfusion hq)
    | .ok ans =>
      simp only [hg, Except.ok.injEq] at hq
      subst hq
      exact ⟨by simp, ⟨ctx, rfl, rfl⟩, rfl⟩

/-- The response produced by the concrete query of the C5 witness. -/
def respW : RAGResponse := ⟨['y'], [['b'], ['a']], ⟨2, 4⟩⟩

/-- Witness for **C5**: a concrete successful query on the two-record
pipeline with clock readings 5 and 9. -/
theorem query_response_metadata_witness :
    RAGPipeline.query { vectorStore := some storeAB } relHead
        (fun _ => .ok ['y']) 5 9 = .ok respW ∧
      (respW.metadata.retrievedDocs = respW.context.length ∧
        (∃ ctx, RAGPipeline.retrieve { vectorStore := some storeAB } relHead =
            .ok ctx ∧
          respW.context = ctx.map Document.content) ∧
        respW.metadata.processingTime = 9 - 5) :=
  ⟨rfl,
    query_response_metadata { vectorStore := some storeAB } relHead
      (fun _ => .ok ['y']) 5 9 respW rfl⟩

/-- A PDF processor whose store holds two records. -/
def pdfAB : CustomPDFProcessor := { vectorStore := some storeAB }

/-- **C7** (counterexample): the claim says every search attempted before at
least one successful add fails with the `IndexNotReady` error.  But
`processDocuments` assigns the freshly created store before `addDocuments`
runs, so after a `processDocuments` call whose embedding/add step failed —
a state still prior to any successful add — `searchWithScore` succeeds with
an empty result instead of failing. -/
theorem search_before_successful_add_not_error :
    (SemanticSearchProcessor.processDocuments {} (.ok [⟨['a'], []⟩])
        (.error .embeddingFailed)).2 = .error .embeddingFailed ∧
      SemanticSearchProcessor.searchWithScore
          (SemanticSearchProcessor.processDocuments {} (.ok [⟨['a'], []⟩])
            (.error .embeddingFailed)).1 relHead 3 =
        .ok [] :=
  ⟨rfl, rfl⟩

/-- **C7** (amended): every search — by text, with score, or by vector —
attempted before `processDocuments` has created the vector store fails with
the not-initialized (`IndexNotReady`) error at the Vector Index boundary;
after a `processDocuments` attempt whose add step failed the store exists
(empty) and searches succeed despite no successful add having occurred. -/
theorem search_before_store_fails (p : SemanticSearchProcessor)
    (rel : IndexedRecord → ℚ) (qv : List ℚ) (sim : List ℚ → List ℚ → ℚ)
    (k : Nat) (hp : p.vectorStore = none) :
    p.searchWithScore rel k = .error .notInitialized ∧
    p.search rel k = .error .notInitialized ∧
    p.searchWithVectorsWithScore qv sim k = .error .notInitialized := by
  refine ⟨?_, ?_, ?_⟩ <;>
    simp [SemanticSearchProcessor.searchWithScore,
      SemanticSearchProcessor.search,
      SemanticSearchProcessor.searchWithVectorsWithScore, hp]

/-- Witness for the amended **C7** on a freshly constructed processor. -/
theorem search_before_store_fails_witness :
    SemanticSearchProcessor.searchWithScore {} relHead 3 =
        .error .notInitialized ∧
      SemanticSearchProcessor.search {} relHead 3 = .error .notInitialized ∧
      SemanticSearchProcessor.searchWithVectorsWithScore {} [1]
          (fun _ _ => 0) 3 =
        .error .notInitialized :=
  search_before_store_fails {} relHead [1] (fun _ _ => 0) 3 rfl

/-- A file loader configuration whose path does not exist. -/
def cfgMissing : DocumentLoaderConfig :=
  { kind := .file, fileConfig := some ⟨"missing.pdf", .pdf⟩ }

/-- **C8**: for every file loader configuration, loading fails with
`NotFound` when the path does not exist — before any read attempt (the
outcome is the same for every loader-running function) and before the
sub-format is examined (the configuration's declared format is arbitrary);
when the path exists and the declared sub-format is neither `pdf` nor
`txt`, loading fails with `UnsupportedFormat`. -/
theorem createLoader_file_errors (fsExists : String → Bool)
    (cfg : DocumentLoaderConfig) (f : FileConfig)
    (hk : cfg.kind = .file) (hf : cfg.fileConfig = some f) :
    (fsExists f.path = false →
      ∀ runLoader,
        DocumentLoaderFactory.loadDocuments fsExists runLoader cfg =
          .error (.notFound f.path)) ∧
    (fsExists f.path = true → f.format ≠ .pdf → f.format ≠ .txt →
      ∀ runLoader,
        DocumentLoaderFactory.loadDocuments fsExists runLoader cfg =
          .error .unsupportedFormat) := by
  constructor
  · intro hfs runLoader
    simp [DocumentLoaderFactory.loadDocuments,
      DocumentLoaderFactory.createLoader, hk, hf, hfs]
  · intro hfs hpdf htxt runLoader
    match hfmt : f.format with
    | .pdf => exact absurd hfmt hpdf
    | .txt => exact absurd hfmt htxt
    | .json =>
      simp [DocumentLoaderFactory.loadDocuments,
        DocumentLoaderFactory.createLoader, hk, hf, hfs, hfmt]

/-- Witness for **C8**: with a filesystem on which no path exists, loading
the missing-file configuration fails with `NotFound` for an arbitrary
loader-running function. -/
theorem createLoader_file_errors_witness :
    DocumentLoaderFactory.loadDocuments (fun _ => false) (fun _ => .ok [])
        cfgMissing =
      .error (.notFound "missing.pdf") :=
  (createLoader_file_errors (fun _ => false) cfgMissing
    ⟨"missing.pdf", .pdf⟩ rfl rfl).1 rfl (fun _ => .ok [])

/-- **C9**: the statistics accessor reports `totalChunks` as the number of
structural keys of the backend vector store object; that value does not
change when records are added to the store, and there is a reachable
processor state in which it differs from the number of stored records. -/
theorem getStats_structural_keys (p : CustomPDFProcessor)
    (s : MemoryVectorStore) (recs : List IndexedRecord)
    (hp : p.vectorStore = some s) :
    (CustomPDFProcessor.getStats p).totalChunks = (objectKeys s).length ∧
    (CustomPDFProcessor.getStats
        { p with vectorStore := some (s.addRecords recs) }).totalChunks =
      (CustomPDFProcessor.getStats p).totalChunks ∧
    ∃ q : CustomPDFProcessor,
      (CustomPDFProcessor.getStats q).totalChunks ≠ q.storedRecords := by
  refine ⟨?_, ?_, ⟨pdfAB, by decide⟩⟩
  · simp [CustomPDFProcessor.getStats, hp]
  · simp [CustomPDFProcessor.getStats, hp, objectKeys]

/-- Witness for **C9** on the two-record PDF processor: adding a third
record leaves `totalChunks` unchanged. -/
theorem getStats_structural_keys_witness :
    ((CustomPDFProcessor.getStats pdfAB).totalChunks =
        (objectKeys storeAB).length ∧
      (CustomPDFProcessor.getStats
          { pdfAB with
            vectorStore := some (storeAB.addRecords [recC]) }).totalChunks =
        (CustomPDFProcessor.getStats pdfAB).totalChunks ∧
      ∃ q : CustomPDFProcessor,
        (CustomPDFProcessor.getStats q).totalChunks ≠ q.storedRecords) :=
  getStats_structural_keys pdfAB storeAB [recC] rfl

/-- **C10** (counterexample): the claim says that after every failing
`changePDF` call every subsequent search fails with the not-initialized
error.  But when the failure occurs at the embedding/add step, the store
has already been re-created (empty), and a subsequent search succeeds with
an empty result. -/
theorem changePDF_embed_failure_search_succeeds :
    (CustomPDFProcessor.changePDF pdfAB "How-To-Buy-Sell-Shares-GSE.pdf"
        (.ok [⟨['g'], []⟩]) (.error .embeddingFailed)).2 =
      .error .embeddingFailed ∧
      CustomPDFProcessor.search
          (CustomPDFProcessor.changePDF pdfAB "How-To-Buy-Sell-Shares-GSE.pdf"
            (.ok [⟨['g'], []⟩]) (.error .embeddingFailed)).1 relHead 3 =
        .ok [] :=
  ⟨rfl, rfl⟩

/-- **C10** (amended): `changePDF` discards the existing vector store and
loaded documents before reprocessing, so a failing call loses the records
indexed before the call and does not restore the prior state.  When loading
the new file fails the processor is left with no store and every subsequent
search fails with the not-initialized error; when the failure occurs at the
embedding/add step the store has been re-created empty, and subsequent
searches return empty results instead of that error. -/
theorem changePDF_failure_discards (p : CustomPDFProcessor) (name : String)
    (e : PError) (docs : List Document) (rel : IndexedRecord → ℚ) (k : Nat) :
    (∀ embedRes,
      CustomPDFProcessor.changePDF p name (.error e) embedRes =
        ({ p with pdfFileName := name, vectorStore := none, documents := [] },
          .error e) ∧
      CustomPDFProcessor.search
          (CustomPDFProcessor.changePDF p name (.error e) embedRes).1 rel k =
        .error .notInitialized) ∧
    (CustomPDFProcessor.changePDF p name (.ok docs) (.error .embeddingFailed) =
        ({ p with
            pdfFileName := name
            vectorStore := some {}
            documents := docs },
          .error .embeddingFailed) ∧
      CustomPDFProcessor.search
          (CustomPDFProcessor.changePDF p name (.ok docs)
            (.error .embeddingFailed)).1 rel k =
        .ok []) := by
  refine ⟨fun embedRes => ⟨rfl, rfl⟩, rfl, ?_⟩
  simp [CustomPDFProcessor.changePDF, CustomPDFProcessor.processDocuments,
    CustomPDFProcessor.search, similaritySearch]

/-- Witness for the amended **C10**: a concrete failing `changePDF` call
whose load step fails leaves the two-record processor without a store. -/
theorem changePDF_failure_discards_witness :
    (CustomPDFProcessor.changePDF pdfAB "other.pdf"
        (.error (.notFound "other.pdf")) (.error .embeddingFailed) =
      ({ pdfAB with
          pdfFileName := "other.pdf"
          vectorStore := none
          documents := [] },
        .error (.notFound "other.pdf")) ∧
      CustomPDFProcessor.search
          (CustomPDFProcessor.changePDF pdfAB "other.pdf"
            (.error (.notFound "other.pdf")) (.error .embeddingFailed)).1
          relHead 3 =
        .error .notInitialized) :=
  (changePDF_failure_discards pdfAB "other.pdf" (.notFound "other.pdf")
    [] relHead 3).1 (.error .embeddingFailed)
